import Mathlib

/-!
Shallow embedding of src/util.c from cpu-energy-meter: the debug flag,
the capability dropper, the root-privilege dropper and the CPU affinity
utilities. Each fallible OS call is driven by an explicit oracle record
saying whether the call succeeds; successful calls update an explicit
process-state record, and each embedded function also returns the trace
of OS calls it attempted, so that theorems can speak about which calls
were made, in which order, and with which outcome.
-/

namespace Util

/-! ### Debug flag (util.c lines 21-29) -/

/-- Process-wide module state: the static int debug_enabled, 0 at start. -/
structure UtilState where
  debug_enabled : Nat
deriving Repr, DecidableEq

/-- State at process start: static int debug_enabled = 0. -/
def init_state : UtilState := ⟨0⟩

/-- void enable_debug(): sets debug_enabled = 1. -/
def enable_debug (s : UtilState) : UtilState := { s with debug_enabled := 1 }

/-- int is_debug_enabled(): returns debug_enabled. -/
def is_debug_enabled (s : UtilState) : Nat := s.debug_enabled

/-- Entry points of util.c as they act on the debug flag: enable_debug
writes it; every other function of the module (is_debug_enabled,
drop_capabilities, drop_root_privileges_by_id, bind_cpu, bind_context,
is_cpu_offline) never writes debug_enabled, which the constructor
other_call records. -/
inductive DebugOp where
  | enable_debug
  | other_call
deriving Repr, DecidableEq

/-- Effect of one module entry point on the debug flag. -/
def apply_debug_op (op : DebugOp) (s : UtilState) : UtilState :=
  match op with
  | .enable_debug => enable_debug s
  | .other_call => s

/-- Run a sequence of module entry points from a given state. -/
def run_debug_ops : List DebugOp → UtilState → UtilState
  | [], s => s
  | op :: rest, s => run_debug_ops rest (apply_debug_op op s)

/-! ### Capability dropper (util.c lines 40-60) -/

/-- Oracle for the four libcap calls made by drop_capabilities:
whether cap_get_proc, cap_clear, cap_set_proc and cap_free succeed. -/
structure CapOS where
  get_ok : Bool
  clear_ok : Bool
  set_ok : Bool
  free_ok : Bool
deriving Repr, DecidableEq

/-- The libcap calls drop_capabilities can attempt, in source order. -/
inductive CapEvent where
  | cap_get_proc
  | cap_clear
  | cap_set_proc
  | cap_free
deriving Repr, DecidableEq

/-- Outcome of a void function that may terminate the process via
err/errx: either a normal return or process exit with a status and the
message passed to err/errx. -/
inductive CapResult where
  | ok
  | exit (status : Nat) (msg : String)
deriving Repr, DecidableEq

/-- void drop_capabilities(): cap_get_proc, cap_clear, cap_set_proc,
cap_free in order, each failure fatal via err(1, ...). The Finset Nat
argument is the set of capability flags the process currently holds; a
successful cap_set_proc installs the cleared working state, so the
process capability set becomes empty. Returns the outcome, the trace of
attempted calls, and the process capability set afterwards. -/
def drop_capabilities (os : CapOS) (proc_caps : Finset Nat) :
    CapResult × List CapEvent × Finset Nat :=
  if ¬ os.get_ok then
    (.exit 1 "Getting capabilities of process failed", [.cap_get_proc], proc_caps)
  else if ¬ os.clear_ok then
    (.exit 1 "cap_clear failed", [.cap_get_proc, .cap_clear], proc_caps)
  else if ¬ os.set_ok then
    (.exit 1 "Dropping capabilities failed",
      [.cap_get_proc, .cap_clear, .cap_set_proc], proc_caps)
  else if ¬ os.free_ok then
    (.exit 1 "cap_free failed",
      [.cap_get_proc, .cap_clear, .cap_set_proc, .cap_free], ∅)
  else
    (.ok, [.cap_get_proc, .cap_clear, .cap_set_proc, .cap_free], ∅)

/-! ### Privilege dropper (util.c lines 68-106) -/

/-- Identity state of the process: real and effective uid/gid and the
supplementary group list. uid_t/gid_t are unsigned, embedded as Nat. -/
structure ProcState where
  ruid : Nat
  rgid : Nat
  euid : Nat
  egid : Nat
  groups : List Nat
deriving Repr, DecidableEq

/-- Oracle for the fallible identity calls made by
drop_root_privileges_by_id: whether setgroups, setregid and setreuid
succeed, and whether the verification calls setegid(oldgid) and
seteuid(olduid) succeed at regaining the old effective ids. -/
structure PrivOS where
  setgroups_ok : Bool
  setregid_ok : Bool
  setreuid_ok : Bool
  setegid_old_ok : Bool
  seteuid_old_ok : Bool
deriving Repr, DecidableEq

/-- The identity-changing calls drop_root_privileges_by_id can attempt,
each recorded with its arguments and whether it succeeded. -/
inductive PrivEvent where
  | setgroups (groups : List Nat) (ok : Bool)
  | setregid (rgid egid : Nat) (ok : Bool)
  | setreuid (ruid euid : Nat) (ok : Bool)
  | setegid_check (gid : Nat) (ok : Bool)
  | seteuid_check (uid : Nat) (ok : Bool)
deriving Repr, DecidableEq

/-- Outcome of drop_root_privileges_by_id: a normal return carrying the
final identity state, or process exit via err/errx with status and
message. -/
inductive DropResult where
  | ret (s : ProcState)
  | exit (status : Nat) (msg : String)
deriving Repr, DecidableEq

/-- newgid computation, line 69: gid > 0 ? gid : getgid(). The second
argument is the current real gid. -/
def target_gid (gid rgid : Nat) : Nat := if gid > 0 then gid else rgid

/-- newuid computation, line 71: uid > 0 ? uid : getuid(). The second
argument is the current real uid. -/
def target_uid (uid ruid : Nat) : Nat := if uid > 0 then uid else ruid

/-- void drop_root_privileges_by_id(uid_t uid, gid_t gid), lines 68-106.
Early return when neither effective id is root; setgroups attempted when
the effective uid is root, with its return value ignored; setregid and
setreuid guarded by target-differs-from-current, fatal on failure; then
the verification block, which re-attempts the old effective ids and is
fatal when the re-attempt succeeds or the id in force is not the target.
Returns the outcome together with the trace of attempted OS calls. -/
def drop_root_privileges_by_id (os : PrivOS) (s : ProcState) (uid gid : Nat) :
    DropResult × List PrivEvent :=
  let newgid := target_gid gid s.rgid
  let oldgid := s.egid
  let newuid := target_uid uid s.ruid
  let olduid := s.euid
  if olduid ≠ 0 ∧ oldgid ≠ 0 then
    (.ret s, [])
  else
    let t0 : List PrivEvent :=
      if olduid = 0 then [.setgroups [newgid] os.setgroups_ok] else []
    let s0 : ProcState :=
      if olduid = 0 ∧ os.setgroups_ok then { s with groups := [newgid] } else s
    if newgid ≠ oldgid ∧ ¬ os.setregid_ok then
      (.exit 1 "Changing group id of process failed",
        t0 ++ [.setregid newgid newgid false])
    else
      let t1 := t0 ++ (if newgid ≠ oldgid then [.setregid newgid newgid true] else [])
      let s1 := if newgid ≠ oldgid then { s0 with rgid := newgid, egid := newgid } else s0
      if newuid ≠ olduid ∧ ¬ os.setreuid_ok then
        (.exit 1 "Changing user id of process failed",
          t1 ++ [.setreuid newuid newuid false])
      else
        let t2 := t1 ++ (if newuid ≠ olduid then [.setreuid newuid newuid true] else [])
        let s2 := if newuid ≠ olduid then { s1 with ruid := newuid, euid := newuid } else s1
        if newgid ≠ oldgid ∧ (os.setegid_old_ok ∨ s2.egid ≠ newgid) then
          (.exit 1 "Changing group id of process failed",
            t2 ++ [.setegid_check oldgid os.setegid_old_ok])
        else
          let t3 := t2 ++ (if newgid ≠ oldgid then [.setegid_check oldgid os.setegid_old_ok] else [])
          if newuid ≠ olduid ∧ (os.seteuid_old_ok ∨ s2.euid ≠ newuid) then
            (.exit 1 "Changing user id of process failed",
              t3 ++ [.seteuid_check olduid os.seteuid_old_ok])
          else
            let t4 := t3 ++ (if newuid ≠ olduid then [.seteuid_check olduid os.seteuid_old_ok] else [])
            (.ret s2, t4)

/-! ### CPU affinity (util.c lines 108-147) -/

/-- Oracle for the two scheduler calls: whether sched_getaffinity and
sched_setaffinity succeed. -/
structure AffOS where
  get_ok : Bool
  set_ok : Bool
deriving Repr, DecidableEq

/-- Result of bind_context/bind_cpu: the int return value, the process
affinity mask afterwards, and the value written through old_context
(none when the pointer was NULL or never written). -/
structure BindResult where
  ret : Int
  affinity : Finset Nat
  old_out : Option (Finset Nat)
deriving DecidableEq

/-- CPU_ZERO: the empty cpu set. -/
def CPU_ZERO : Finset Nat := ∅

/-- CPU_SET: add one cpu index to a cpu set. -/
def CPU_SET (cpu : Nat) (ctx : Finset Nat) : Finset Nat := insert cpu ctx

/-- int bind_context(cpu_set_t *new_context, cpu_set_t *old_context),
lines 116-130. cur is the process affinity in force at the call;
want_old says whether old_context is non-NULL. When old_context is
given, a failed sched_getaffinity returns -1 before sched_setaffinity
is attempted; a failed sched_setaffinity returns -1 leaving the
affinity unchanged; otherwise 0 with the new mask installed. -/
def bind_context (os : AffOS) (cur new_context : Finset Nat) (want_old : Bool) :
    BindResult :=
  if want_old ∧ ¬ os.get_ok then
    ⟨-1, cur, none⟩
  else
    let old_out := if want_old then some cur else none
    if ¬ os.set_ok then
      ⟨-1, cur, old_out⟩
    else
      ⟨0, new_context, old_out⟩

/-- int bind_cpu(int cpu, cpu_set_t *old_context), lines 108-114:
CPU_ZERO a fresh set, CPU_SET the one cpu, delegate to bind_context. -/
def bind_cpu (os : AffOS) (cur : Finset Nat) (cpu : Nat) (want_old : Bool) :
    BindResult :=
  bind_context os cur (CPU_SET cpu CPU_ZERO) want_old

/-- int is_cpu_offline(int cpu), lines 132-147: read the current
affinity (get_ok says whether sched_getaffinity succeeds, cur is the
mask it reports); -1 on read failure, 1 when cpu is not in the mask,
0 when it is. -/
def is_cpu_offline (get_ok : Bool) (cur : Finset Nat) (cpu : Nat) : Int :=
  if ¬ get_ok then -1
  else if cpu ∉ cur then 1
  else 0

/-! ### Theorems -/

/-- Helper: running a sequence of module entry points leaves the debug
flag at 1 exactly when some enable_debug occurred, and otherwise leaves
it untouched. -/
theorem run_debug_ops_flag (ops : List DebugOp) (s : UtilState) :
    is_debug_enabled (run_debug_ops ops s) =
      if DebugOp.enable_debug ∈ ops then 1 else is_debug_enabled s := by
  induction ops generalizing s with
  | nil => simp [run_debug_ops]
  | cons op rest ih =>
    cases op <;> simp only [run_debug_ops, apply_debug_op] <;> rw [ih] <;>
      simp [enable_debug, is_debug_enabled, List.mem_cons]

/-- Claim C9: the debug flag is 0 (false) at process start; enable_debug
makes every later is_debug_enabled return 1 (true); enable_debug is
idempotent; and over any sequence of module entry points the flag reads
1 exactly when enable_debug was called, 0 otherwise — no entry point
resets it. -/
theorem debug_flag_lifecycle :
    is_debug_enabled init_state = 0 ∧
    (∀ s, is_debug_enabled (enable_debug s) = 1) ∧
    (∀ s, enable_debug (enable_debug s) = enable_debug s) ∧
    (∀ ops, is_debug_enabled (run_debug_ops ops init_state) =
      if DebugOp.enable_debug ∈ ops then 1 else 0) := by
  refine ⟨rfl, fun s => rfl, fun s => rfl, fun ops => ?_⟩
  rw [run_debug_ops_flag]
  rfl

/-- Claim C3: is_cpu_offline returns -1 when the affinity mask cannot be
read; otherwise it returns 1 exactly when cpu is not in the current
affinity mask and 0 exactly when it is. -/
theorem is_cpu_offline_spec (get_ok : Bool) (cur : Finset Nat) (cpu : Nat) :
    (get_ok = false → is_cpu_offline get_ok cur cpu = -1) ∧
    (get_ok = true →
      ((is_cpu_offline get_ok cur cpu = 1 ↔ cpu ∉ cur) ∧
       (is_cpu_offline get_ok cur cpu = 0 ↔ cpu ∈ cur))) := by
  constructor
  · intro h
    simp [is_cpu_offline, h]
  · intro h
    by_cases hc : cpu ∈ cur <;> simp [is_cpu_offline, h, hc]

/-- Witness for C3: concrete evaluations of is_cpu_offline through the
theorem. -/
theorem is_cpu_offline_spec_witness :
    is_cpu_offline false {0} 0 = -1 ∧
    is_cpu_offline true {0} 0 = 0 ∧
    is_cpu_offline true {0} 1 = 1 :=
  ⟨(is_cpu_offline_spec false {0} 0).1 rfl,
   ((is_cpu_offline_spec true {0} 0).2 rfl).2.mpr (by decide),
   ((is_cpu_offline_spec true {0} 1).2 rfl).1.mpr (by decide)⟩

/-- Claim C7: bind_context returns -1 without applying the new mask when
old_context is supplied and the affinity read fails; returns -1 leaving
the affinity unchanged when applying the new mask fails; and otherwise
returns 0 with the new mask installed and, when supplied, old_context
holding the affinity in force just before the change. The result type
has no exit outcome: no failure terminates the process. -/
theorem bind_context_spec (os : AffOS) (cur new_context : Finset Nat) (want_old : Bool) :
    (want_old = true → os.get_ok = false →
      bind_context os cur new_context want_old = ⟨-1, cur, none⟩) ∧
    (os.set_ok = false →
      (bind_context os cur new_context want_old).ret = -1 ∧
      (bind_context os cur new_context want_old).affinity = cur) ∧
    ((want_old = false ∨ os.get_ok = true) → os.set_ok = true →
      bind_context os cur new_context want_old =
        ⟨0, new_context, if want_old then some cur else none⟩) := by
  refine ⟨?_, ?_, ?_⟩
  · intro h1 h2
    simp [bind_context, h1, h2]
  · intro h
    rcases hw : want_old <;> rcases hg : os.get_ok <;> simp [bind_context, h, hw, hg]
  · rintro (h1 | h1) h2 <;> simp [bind_context, h1, h2]

/-- Witness for C7: a concrete successful bind with the previous mask
reported. -/
theorem bind_context_spec_witness :
    bind_context ⟨true, true⟩ {0} {1} true = ⟨0, {1}, some {0}⟩ := by
  simpa using (bind_context_spec ⟨true, true⟩ {0} {1} true).2.2 (Or.inr rfl) rfl

/-- Claim C8: bind_cpu cpu is exactly bind_context applied to the
affinity set holding cpu and nothing else: the same BindResult (return
value, resulting affinity, stored previous mask), and the set bind_cpu
builds contains exactly cpu. -/
theorem bind_cpu_refines_bind_context (os : AffOS) (cur : Finset Nat) (cpu : Nat)
    (want_old : Bool) :
    bind_cpu os cur cpu want_old = bind_context os cur {cpu} want_old ∧
    (∀ x, x ∈ CPU_SET cpu CPU_ZERO ↔ x = cpu) := by
  constructor
  · simp [bind_cpu, CPU_SET, CPU_ZERO]
  · intro x
    simp [CPU_SET, CPU_ZERO]

/-- Claim C6: drop_capabilities attempts cap_get_proc, cap_clear,
cap_set_proc, cap_free in that order; the first failure exits with
status 1 and that call's message; on full success it returns ok (no
message) with the process capability set emptied; every exit carries
status 1 (non-zero); and the trace is always an in-order initial
segment of the four calls. -/
theorem drop_capabilities_spec (os : CapOS) (caps : Finset Nat) :
    (os.get_ok = false →
      drop_capabilities os caps =
        (.exit 1 "Getting capabilities of process failed", [.cap_get_proc], caps)) ∧
    (os.get_ok = true → os.clear_ok = false →
      drop_capabilities os caps =
        (.exit 1 "cap_clear failed", [.cap_get_proc, .cap_clear], caps)) ∧
    (os.get_ok = true → os.clear_ok = true → os.set_ok = false →
      drop_capabilities os caps =
        (.exit 1 "Dropping capabilities failed",
          [.cap_get_proc, .cap_clear, .cap_set_proc], caps)) ∧
    (os.get_ok = true → os.clear_ok = true → os.set_ok = true → os.free_ok = false →
      drop_capabilities os caps =
        (.exit 1 "cap_free failed",
          [.cap_get_proc, .cap_clear, .cap_set_proc, .cap_free], ∅)) ∧
    (os.get_ok = true → os.clear_ok = true → os.set_ok = true → os.free_ok = true →
      drop_capabilities os caps =
        (.ok, [.cap_get_proc, .cap_clear, .cap_set_proc, .cap_free], ∅)) ∧
    (∀ st msg tr c, drop_capabilities os caps = (.exit st msg, tr, c) → st = 1) ∧
    (∃ n, (drop_capabilities os caps).2.1 =
      [CapEvent.cap_get_proc, .cap_clear, .cap_set_proc, .cap_free].take n) := by
  refine ⟨?_, ?_, ?_, ?_, ?_, ?_, ?_⟩
  · intro h1
    simp [drop_capabilities, h1]
  · intro h1 h2
    simp [drop_capabilities, h1, h2]
  · intro h1 h2 h3
    simp [drop_capabilities, h1, h2, h3]
  · intro h1 h2 h3 h4
    simp [drop_capabilities, h1, h2, h3, h4]
  · intro h1 h2 h3 h4
    simp [drop_capabilities, h1, h2, h3, h4]
  · intro st msg tr c h
    obtain ⟨g, cl, se, fr⟩ := os
    cases g <;> cases cl <;> cases se <;> cases fr <;>
      simp_all [drop_capabilities]
  · obtain ⟨g, cl, se, fr⟩ := os
    cases g <;> cases cl <;> cases se <;> cases fr <;>
      first
        | exact ⟨1, rfl⟩
        | exact ⟨2, rfl⟩
        | exact ⟨3, rfl⟩
        | exact ⟨4, rfl⟩

/-- Witness for C6: the all-success run clears the capability set and
reports the four calls in order. -/
theorem drop_capabilities_spec_witness :
    drop_capabilities ⟨true, true, true, true⟩ {0, 1} =
      (.ok, [.cap_get_proc, .cap_clear, .cap_set_proc, .cap_free], ∅) :=
  (drop_capabilities_spec ⟨true, true, true, true⟩ {0, 1}).2.2.2.2.1 rfl rfl rfl rfl

/-- Claim C4: the computed targets of drop_root_privileges_by_id treat 0
as a sentinel: a zero uid/gid argument selects the current real uid/gid
as target, a non-zero argument is the target itself, and the target is
the literal id 0 only when the current real id is itself 0. -/
theorem target_id_sentinel (uid gid ruid rgid : Nat) :
    target_uid uid ruid = (if uid = 0 then ruid else uid) ∧
    target_gid gid rgid = (if gid = 0 then rgid else gid) ∧
    (target_uid uid ruid = 0 → ruid = 0) ∧
    (target_gid gid rgid = 0 → rgid = 0) := by
  refine ⟨?_, ?_, ?_, ?_⟩
  · unfold target_uid
    split <;> split <;> omega
  · unfold target_gid
    split <;> split <;> omega
  · intro h
    unfold target_uid at h
    split at h <;> omega
  · intro h
    unfold target_gid at h
    split at h <;> omega

/-- Witness for C4: concrete sentinel and non-sentinel targets. -/
theorem target_id_sentinel_witness :
    target_uid 0 7 = (if (0 : Nat) = 0 then 7 else 0) ∧
    target_gid 5 7 = (if (5 : Nat) = 0 then 7 else 5) ∧
    (0 : Nat) = 0 :=
  ⟨(target_id_sentinel 0 5 7 7).1, (target_id_sentinel 0 5 7 7).2.1,
   (target_id_sentinel 0 0 0 0).2.2.1 rfl⟩

/-- Claim C5: with both effective ids non-zero, drop_root_privileges_by_id
returns the state unchanged (ids and supplementary groups intact) and
attempts no OS call, hence cannot terminate the process. -/
theorem drop_root_noop_when_not_root (os : PrivOS) (s : ProcState) (uid gid : Nat)
    (hu : s.euid ≠ 0) (hg : s.egid ≠ 0) :
    drop_root_privileges_by_id os s uid gid = (.ret s, []) := by
  simp [drop_root_privileges_by_id, hu, hg]

/-- Witness for C5: a fully non-root process is left untouched. -/
theorem drop_root_noop_when_not_root_witness :
    drop_root_privileges_by_id ⟨true, true, true, true, true⟩ ⟨1, 1, 1, 1, [1]⟩ 0 0 =
      (.ret ⟨1, 1, 1, 1, [1]⟩, []) :=
  drop_root_noop_when_not_root ⟨true, true, true, true, true⟩ ⟨1, 1, 1, 1, [1]⟩ 0 0
    (by decide) (by decide)

/-- Claim C10: with effective uid 0 and both computed targets equal to
the current effective ids, drop_root_privileges_by_id attempts only the
setgroups call (whose outcome touches just the supplementary list),
skips every id change and the whole verification block, and returns
normally with all four ids unchanged. -/
theorem drop_root_skip_when_ids_match (os : PrivOS) (s : ProcState) (uid gid : Nat)
    (h0 : s.euid = 0) (hg : target_gid gid s.rgid = s.egid)
    (hu : target_uid uid s.ruid = s.euid) :
    drop_root_privileges_by_id os s uid gid =
      (.ret { s with groups := if os.setgroups_ok then [s.egid] else s.groups },
       [.setgroups [s.egid] os.setgroups_ok]) := by
  obtain ⟨ruid, rgid, euid, egid, groups⟩ := s
  by_cases hb : os.setgroups_ok <;>
    simp_all [drop_root_privileges_by_id]

/-- Witness for C10: root with matching targets keeps its identity, only
the group list having been pared. -/
theorem drop_root_skip_when_ids_match_witness :
    drop_root_privileges_by_id ⟨true, true, true, true, true⟩ ⟨0, 0, 0, 0, []⟩ 0 0 =
      (.ret ⟨0, 0, 0, 0, [0]⟩, [.setgroups [0] true]) := by
  simpa using
    drop_root_skip_when_ids_match ⟨true, true, true, true, true⟩ ⟨0, 0, 0, 0, []⟩ 0 0
      rfl rfl rfl

/-- Counterexample to claim C1 as stated: a non-root process (euid 3,
egid 7) calling drop_root_privileges_by_id with target gid 5 has a
computed target gid differing from the old effective gid, yet the
function returns normally through the early non-root return, with no
restore attempt in the trace and an effective gid still unequal to the
target. -/
theorem drop_root_verification_cex :
    target_gid 5 (7 : Nat) ≠ (⟨3, 7, 3, 7, [7]⟩ : ProcState).egid ∧
    drop_root_privileges_by_id ⟨true, true, true, true, true⟩ ⟨3, 7, 3, 7, [7]⟩ 0 5 =
      (.ret ⟨3, 7, 3, 7, [7]⟩, []) := by
  constructor
  · decide
  · rfl

/-- Claim C1 amended: restricted to calls that pass the non-root early
return (effective uid 0 or effective gid 0): whenever the function
returns normally its effective gid and uid equal the computed targets,
and when a target differed from the old effective id the trace holds a
failed attempt to restore that old effective id; every other outcome is
process exit with status 1. -/
theorem drop_root_verification (os : PrivOS) (s : ProcState) (uid gid : Nat)
    (hroot : s.euid = 0 ∨ s.egid = 0) :
    (match drop_root_privileges_by_id os s uid gid with
     | (.ret s2, tr) =>
        s2.egid = target_gid gid s.rgid ∧ s2.euid = target_uid uid s.ruid ∧
        (target_gid gid s.rgid ≠ s.egid →
          os.setegid_old_ok = false ∧ PrivEvent.setegid_check s.egid false ∈ tr) ∧
        (target_uid uid s.ruid ≠ s.euid →
          os.seteuid_old_ok = false ∧ PrivEvent.seteuid_check s.euid false ∈ tr)
     | (.exit st _, _) => st = 1) := by
  rcases hroot with h0 | h0 <;>
    by_cases hg : target_gid gid s.rgid = s.egid <;>
    by_cases hu : target_uid uid s.ruid = s.euid <;>
    by_cases h00 : s.euid = 0 <;>
    by_cases hb : os.setgroups_ok <;>
    by_cases hrg : os.setregid_ok <;>
    by_cases hru : os.setreuid_ok <;>
    by_cases heg : os.setegid_old_ok <;>
    by_cases heu : os.seteuid_old_ok <;>
    simp_all [drop_root_privileges_by_id]

/-- Witness for C1 amended: a root process dropping to uid 5, gid 7 under
an oracle whose restore attempts fail. -/
theorem drop_root_verification_witness :
    (match drop_root_privileges_by_id ⟨true, true, true, false, false⟩ ⟨0, 0, 0, 0, []⟩ 5 7 with
     | (.ret s2, tr) =>
        s2.egid = target_gid 7 (0 : Nat) ∧ s2.euid = target_uid 5 (0 : Nat) ∧
        (target_gid 7 (0 : Nat) ≠ (0 : Nat) →
          (false : Bool) = false ∧ PrivEvent.setegid_check 0 false ∈ tr) ∧
        (target_uid 5 (0 : Nat) ≠ (0 : Nat) →
          (false : Bool) = false ∧ PrivEvent.seteuid_check 0 false ∈ tr)
     | (.exit st _, _) => st = 1) :=
  drop_root_verification ⟨true, true, true, false, false⟩ ⟨0, 0, 0, 0, []⟩ 5 7 (Or.inl rfl)

/-- Counterexample to claim C2 as stated: with effective uid 0 the
setgroups call is attempted and fails, yet drop_root_privileges_by_id
returns normally — its return value is never checked, so not every OS
call failure terminates the process. -/
theorem drop_root_setgroups_unchecked_cex :
    drop_root_privileges_by_id ⟨false, true, true, false, false⟩ ⟨0, 0, 0, 0, [5]⟩ 0 0 =
      (.ret ⟨0, 0, 0, 0, [5]⟩, [.setgroups [0] false]) := by
  rfl

set_option maxHeartbeats 1600000 in
/-- Claim C2 amended: for calls proceeding past the non-root early
return, failure of either checked identity call is fatal — a failing
setregid (when the gid target differs) and a failing setreuid (when the
uid target differs and the gid step did not already exit) each end the
process with exit status 1 and the message naming the failed operation —
and every exit of the function carries status 1; only the unchecked
setgroups call can fail without terminating. -/
theorem drop_root_fatal_on_checked_calls (os : PrivOS) (s : ProcState) (uid gid : Nat)
    (hroot : s.euid = 0 ∨ s.egid = 0) :
    (target_gid gid s.rgid ≠ s.egid → os.setregid_ok = false →
      (drop_root_privileges_by_id os s uid gid).1 =
        .exit 1 "Changing group id of process failed") ∧
    (target_uid uid s.ruid ≠ s.euid → os.setreuid_ok = false →
      (target_gid gid s.rgid = s.egid ∨ os.setregid_ok = true) →
      (drop_root_privileges_by_id os s uid gid).1 =
        .exit 1 "Changing user id of process failed") ∧
    (∀ st msg tr, drop_root_privileges_by_id os s uid gid = (.exit st msg, tr) → st = 1) := by
  rcases hroot with h0 | h0 <;>
    by_cases hg : target_gid gid s.rgid = s.egid <;>
    by_cases hu : target_uid uid s.ruid = s.euid <;>
    by_cases h00 : s.euid = 0 <;>
    by_cases hb : os.setgroups_ok <;>
    by_cases hrg : os.setregid_ok <;>
    by_cases hru : os.setreuid_ok <;>
    by_cases heg : os.setegid_old_ok <;>
    by_cases heu : os.seteuid_old_ok <;>
    simp_all [drop_root_privileges_by_id]

/-- Witness for C2 amended: a failing setregid aborts a root process
with status 1. -/
theorem drop_root_fatal_on_checked_calls_witness :
    (drop_root_privileges_by_id ⟨true, false, true, false, false⟩ ⟨0, 0, 0, 7, [7]⟩ 0 5).1 =
      .exit 1 "Changing group id of process failed" :=
  (drop_root_fatal_on_checked_calls ⟨true, false, true, false, false⟩ ⟨0, 0, 0, 7, [7]⟩ 0 5
    (Or.inl rfl)).1 (by decide) rfl

end Util
